import Mathlib

/-!
Shallow embedding of the movie-db application core, translated from the
TypeScript sources:

* the TMDB API client (APIError, fetchAPI) from src/unnamed/part_000;
* the poster-filtering list adapter (MovieAdapter.toMovieList) from
  src/unnamed/part_001;
* the detail adapter helpers (toCast, toCrew, toVideos) from
  src/unnamed/part_002;
* the search repository guard (MovieRepository.searchMovies) from
  src/src/features/movies/services/MovieRepository.ts;
* the watchlist persistence service from
  src/src/features/watchlist/services/WatchlistService.ts;
* the sort-mode variant of the useMovieSearch hook from
  src/src/features/movies/hooks/useMovieSearch.ts, modelled as a labelled
  transition system over explicit event traces (debounced-query changes,
  load-more calls, sort changes, and the resolution or rejection of
  in-flight fetches supplied by an adversarial network environment).

JavaScript numbers are modelled as Int (the code only passes them through
or compares them), nullable fields as Option, and thrown exceptions as
Except.  JavaScript String.prototype.trim is modelled over the character
list with the common whitespace set.
-/

/-- Model of the whitespace set trimmed by JavaScript String.prototype.trim
(space, tab, newline, carriage return, vertical tab, form feed,
no-break space).  Rare Unicode space separators are omitted. -/
def isJsWhitespace (c : Char) : Bool :=
  c = ' ' || c = '\t' || c = '\n' || c = '\r' ||
  c = Char.ofNat 11 || c = Char.ofNat 12 || c = Char.ofNat 160

/-- Model of JavaScript String.prototype.trim: drop leading and trailing
whitespace characters. -/
def jsTrim (s : String) : String :=
  ⟨((s.data.dropWhile isJsWhitespace).reverse.dropWhile isJsWhitespace).reverse⟩

/-! ## API client (src/unnamed/part_000) -/

/-- The APIError class: name is always "APIError"; status and statusText
are present only when the error came from a non-2xx HTTP response. -/
structure APIError where
  name : String
  message : String
  status : Option Int
  statusText : Option String
deriving Repr, DecidableEq

/-- Environment-supplied outcome of one fetch call: either the promise
rejects (networkFailure, carrying the message of the thrown value when it
is an Error), or a response arrives with an HTTP status, a status text and
a JSON-parse outcome for its body (the parse error again carrying an
optional message). -/
inductive FetchOutcome (α : Type) where
  | networkFailure (msg : Option String)
  | httpResponse (status : Int) (statusText : String) (body : Except (Option String) α)

/-- Model of Response.ok: status in the inclusive range 200-299. -/
def responseOk (status : Int) : Bool :=
  200 ≤ status && status ≤ 299

/-- fetchAPI from src/unnamed/part_000: non-2xx responses throw an
APIError with message "API request failed: " followed by the status text
and with the status fields filled in; any other failure (network rejection
or JSON parse failure) is caught and re-thrown as an APIError with the
original message (or "Unknown error occurred") and no status fields. -/
def fetchAPI {α : Type} (t : FetchOutcome α) : Except APIError α :=
  match t with
  | .networkFailure msg =>
      .error ⟨"APIError", msg.getD "Unknown error occurred", none, none⟩
  | .httpResponse status statusText body =>
      if responseOk status then
        match body with
        | .ok v => .ok v
        | .error msg =>
            .error ⟨"APIError", msg.getD "Unknown error occurred", none, none⟩
      else
        .error ⟨"APIError", "API request failed: " ++ statusText,
                some status, some statusText⟩

/-! ## Wire types (src/src/lib/api/types.ts shape, as used by the adapters) -/

/-- Wire-format movie item of a TMDB list response.  Floating point fields
(popularity, vote_average) are modelled as Int since the code only passes
them through or compares them. -/
structure TMDBMovie where
  adult : Bool
  backdrop_path : Option String
  genre_ids : List Int
  id : Int
  original_language : String
  original_title : String
  overview : String
  popularity : Int
  poster_path : Option String
  release_date : String
  title : String
  video : Bool
  vote_average : Int
  vote_count : Int
deriving Repr, DecidableEq

/-- Wire-format movie list response. -/
structure TMDBMovieListResponse where
  page : Int
  results : List TMDBMovie
  total_pages : Int
  total_results : Int
deriving Repr, DecidableEq

/-- Image base URL, environment configured (value as stubbed in the
repository test setup). -/
def TMDB_IMAGE_BASE_URL : String := "https://image.tmdb.org/t/p"

/-! ## Poster-filtering list adapter (src/unnamed/part_001) -/

namespace FilteredAdapter

/-- Domain movie of the poster-filtering adapter variant (part_001):
posterUrl is a plain string, composed assuming poster_path is present. -/
structure MovieBasic where
  id : Int
  title : String
  overview : String
  posterUrl : String
  originalLanguage : String
  releaseDate : String
  rating : Int
  voteCount : Int
deriving Repr, DecidableEq

/-- Domain movie list of the poster-filtering adapter variant. -/
structure MovieList where
  page : Int
  movies : List MovieBasic
  totalPages : Int
  totalResults : Int
deriving Repr, DecidableEq

/-- toMovie from part_001: template-string concatenation of the image base
and the poster path (a null poster path would interpolate as the string
"null" in JavaScript; the adapter assumes it is non-null). -/
def toMovie (movie : TMDBMovie) : MovieBasic :=
  { id := movie.id
    title := movie.title
    overview := movie.overview
    posterUrl := TMDB_IMAGE_BASE_URL ++ (match movie.poster_path with
      | some p => p
      | none => "null")
    originalLanguage := movie.original_language
    releaseDate := movie.release_date
    rating := movie.vote_average
    voteCount := movie.vote_count }

/-- MovieAdapter.toMovieList from part_001: filter out movies whose
poster_path is null, map the rest through toMovie, and pass the
pagination fields through. -/
def toMovieList (response : TMDBMovieListResponse) : MovieList :=
  { page := response.page
    movies := (response.results.filter (fun m => m.poster_path.isSome)).map toMovie
    totalPages := response.total_pages
    totalResults := response.total_results }

end FilteredAdapter

/-! ## Detail adapter collection policies (src/unnamed/part_002) -/

/-- Wire-format cast member. -/
structure TMDBCastMember where
  id : Int
  name : String
  character : String
  profile_path : Option String
  order : Int
deriving Repr, DecidableEq

/-- Wire-format crew member. -/
structure TMDBCrewMember where
  id : Int
  name : String
  job : String
  department : String
  profile_path : Option String
deriving Repr, DecidableEq

/-- Wire-format video entry. -/
structure TMDBVideo where
  id : String
  key : String
  name : String
  site : String
  type : String
  official : Bool
deriving Repr, DecidableEq

/-- Domain cast member. -/
structure Cast where
  id : Int
  name : String
  character : String
  profileUrl : Option String
  order : Int
deriving Repr, DecidableEq

/-- Domain crew member. -/
structure Crew where
  id : Int
  name : String
  job : String
  department : String
  profileUrl : Option String
deriving Repr, DecidableEq

/-- Domain video. -/
structure Video where
  id : String
  key : String
  name : String
  site : String
  type : String
  official : Bool
deriving Repr, DecidableEq

namespace MovieAdapter

/-- getImageUrl from part_002: null passthrough, otherwise base, a size
segment and the relative path. -/
def getImageUrl (path : Option String) (size : String) : Option String :=
  match path with
  | none => none
  | some p => some (TMDB_IMAGE_BASE_URL ++ "/" ++ size ++ p)

/-- toCast from part_002: keep only the first 20 cast entries. -/
def toCast (cast : List TMDBCastMember) : List Cast :=
  (cast.take 20).map (fun member =>
    { id := member.id
      name := member.name
      character := member.character
      profileUrl := getImageUrl member.profile_path "w185"
      order := member.order })

/-- The important crew jobs kept by toCrew. -/
def importantJobs : List String := ["Director", "Screenplay", "Writer", "Producer"]

/-- toCrew from part_002: keep only members whose job is important. -/
def toCrew (crew : List TMDBCrewMember) : List Crew :=
  (crew.filter (fun member => importantJobs.contains member.job)).map
    (fun member =>
      { id := member.id
        name := member.name
        job := member.job
        department := member.department
        profileUrl := getImageUrl member.profile_path "w185" })

/-- Rank of a video type in the sort: Trailer 0, Teaser 1, Clip 2, any
other type 999 (the ?? 999 fallback of the lookup table). -/
def typeRank (t : String) : Int :=
  if t = "Trailer" then 0
  else if t = "Teaser" then 1
  else if t = "Clip" then 2
  else 999

/-- The comparator passed to Array.prototype.sort in toVideos: official
videos first, then ascending type rank. -/
def videoCmp (a b : TMDBVideo) : Int :=
  if a.official ≠ b.official then
    (if a.official then -1 else 1)
  else
    typeRank a.type - typeRank b.type

/-- toVideos from part_002: keep YouTube videos, sort official-first then
by type rank (Array.prototype.sort is stable; modelled by the stable
mergeSort with the relation comparator-nonpositive), keep the first 6 and
map to the domain shape. -/
def toVideos (videos : List TMDBVideo) : List Video :=
  ((((videos.filter (fun v => v.site == "YouTube")).mergeSort
      (fun a b => videoCmp a b ≤ 0)).take 6).map
    (fun v =>
      { id := v.id
        key := v.key
        name := v.name
        site := v.site
        type := v.type
        official := v.official }))

end MovieAdapter

/-! ## Domain model used by the search pipeline (src/unnamed/part_002,
src/src/features/movies/types/movie.ts) -/

/-- Domain movie produced by MovieAdapter.toSearchResult and consumed by
the search hook. -/
structure Movie where
  id : Int
  title : String
  originalTitle : String
  originalLanguage : String
  overview : String
  posterUrl : Option String
  backdropUrl : Option String
  releaseDate : String
  rating : Int
  voteCount : Int
  popularity : Int
  genreIds : List Int
deriving Repr, DecidableEq

/-- Search result: a page of domain movies plus pagination fields. -/
structure SearchResult where
  page : Int
  movies : List Movie
  totalPages : Int
  totalResults : Int
deriving Repr, DecidableEq

/-! ## Repository search guard
(src/src/features/movies/services/MovieRepository.ts) -/

/-- Observable behaviour of one repository call: either a result computed
locally with no network access, or a network call with the (trimmed) query and
page that would be passed to the client. -/
inductive RepoCall where
  | localResult (r : SearchResult)
  | networkCall (q : String) (page : Int)
deriving Repr, DecidableEq

namespace MovieRepository

/-- MovieRepository.searchMovies: an empty or whitespace-only query
returns the empty result set without touching the client; otherwise the
trimmed query and the page are handed to the client. -/
def searchMovies (query : String) (page : Int) : RepoCall :=
  if query == "" || jsTrim query == "" then
    .localResult { page := 1, movies := [], totalPages := 0, totalResults := 0 }
  else
    .networkCall (jsTrim query) page

end MovieRepository

/-! ## Watchlist persistence service
(src/src/features/watchlist/services/WatchlistService.ts) -/

/-- Watchlist item: movie id plus insertion timestamp string. -/
structure WatchlistItem where
  movieId : Int
  addedAt : String
deriving Repr, DecidableEq

/-- Versioned watchlist document persisted under one localStorage key. -/
structure WatchlistData where
  items : List WatchlistItem
  version : Int
deriving Repr, DecidableEq

/-- The schema version written by the service. -/
def CURRENT_VERSION : Int := 1

/-- State of the localStorage slot: key absent, unparseable or
structurally invalid content, or a parsed document. -/
inductive Stored where
  | missing
  | corrupt
  | val (d : WatchlistData)
deriving Repr, DecidableEq

namespace WatchlistService

/-- getEmptyData: the empty document at the current schema version. -/
def getEmptyData : WatchlistData :=
  { items := [], version := CURRENT_VERSION }

/-- load: missing or corrupt storage (parse failure, or a parsed value
whose items field is not an array) yields the empty document; otherwise
the parsed document is returned as is, version untouched (no migration). -/
def load (σ : Stored) : WatchlistData :=
  match σ with
  | .missing => getEmptyData
  | .corrupt => getEmptyData
  | .val d => d

/-- add: failure without a write when the movieId is already present;
otherwise a new item with the current timestamp is prepended and the
document is saved.  The clock is passed in as the timestamp string that
new Date().toISOString() produces. -/
def add (movieId : Int) (now : String) (σ : Stored) : Bool × Stored :=
  let d := load σ
  if d.items.any (fun item => item.movieId == movieId) then
    (false, σ)
  else
    (true, .val { items := ⟨movieId, now⟩ :: d.items, version := d.version })

/-- remove: filters the item list by movieId; failure without a write when
nothing was filtered out, success with a save otherwise. -/
def remove (movieId : Int) (σ : Stored) : Bool × Stored :=
  let d := load σ
  let items := d.items.filter (fun item => item.movieId ≠ movieId)
  if items.length = d.items.length then
    (false, σ)
  else
    (true, .val { items := items, version := d.version })

/-- has: membership test on the loaded document. -/
def hasMovie (movieId : Int) (σ : Stored) : Bool :=
  (load σ).items.any (fun item => item.movieId == movieId)

/-- count: number of items in the loaded document. -/
def count (σ : Stored) : Int :=
  (load σ).items.length

/-- clear: saves the empty document. -/
def clear (_σ : Stored) : Stored :=
  .val getEmptyData

/-- One mutating service operation, for reasoning about sequences. -/
inductive WOp where
  | addOp (movieId : Int) (now : String)
  | removeOp (movieId : Int)
  | clearOp
deriving Repr, DecidableEq

/-- Apply one operation; the second component lists the documents written
to storage by the operation (empty on the failure paths, which do not
save). -/
def applyOp (op : WOp) (σ : Stored) : Stored × List WatchlistData :=
  match op with
  | .addOp movieId now =>
      let r := add movieId now σ
      (r.2, if r.1 then [load r.2] else [])
  | .removeOp movieId =>
      let r := remove movieId σ
      (r.2, if r.1 then [load r.2] else [])
  | .clearOp => (clear σ, [getEmptyData])

/-- Run a sequence of operations, accumulating every document written. -/
def runOps (ops : List WOp) (σ : Stored) : Stored × List WatchlistData :=
  ops.foldl (fun acc op =>
    let r := applyOp op acc.1
    (r.1, acc.2 ++ r.2)) (σ, [])

end WatchlistService

/-! ## Search hook, sort-mode variant
(src/src/features/movies/hooks/useMovieSearch.ts, second variant)

The hook is modelled as a labelled transition system.  React state setters
become record updates; the two useRef cells (isLoadingRef and
abortControllerRef) are part of the state; each AbortController is
identified by a generation number, with the set of aborted generations
tracked explicitly.  A started fetch becomes a pending request carrying
the values captured by the async closure (query, page, isLoadMore and its
request id); the environment later resolves or rejects it with an
arbitrary SearchResult or error message, at which point the continuation
after the await runs against the state current at that moment, exactly as
the code does. -/

/-- Sort options of the variant with client-side sorting. -/
inductive SortOption where
  | relevance
  | popularity
  | rating
  | date
  | title
deriving Repr, DecidableEq

/-- A fetch in flight: the request id doubles as the generation number of
the AbortController created when it was started, plus the async closure's
captured arguments. -/
structure PendingReq where
  reqId : Nat
  q : String
  page : Int
  isLoadMore : Bool
deriving Repr, DecidableEq

/-- Full state of one hook instance. -/
structure HookState where
  dq : String
  movies : List Movie
  loading : Bool
  error : Option String
  currentPage : Int
  totalPages : Int
  totalResults : Int
  sortBy : SortOption
  isLoadingRef : Bool
  curCtrl : Option Nat
  aborted : List Nat
  nextId : Nat
  pending : List PendingReq
deriving Repr, DecidableEq

/-- Initial hook state (the useState initialisers). -/
def initState : HookState :=
  { dq := ""
    movies := []
    loading := false
    error := none
    currentPage := 1
    totalPages := 0
    totalResults := 0
    sortBy := .relevance
    isLoadingRef := false
    curCtrl := none
    aborted := []
    nextId := 0
    pending := [] }

/-- Events driving one hook instance: a debounced-query change (which runs
performSearch for page 1), a loadMore call, a sort change, and the
resolution or rejection of a pending fetch, with the response supplied by
the environment. -/
inductive Ev where
  | setDQ (q : String)
  | loadMoreEv
  | setSort (o : SortOption)
  | resolve (reqId : Nat) (r : SearchResult)
  | reject (reqId : Nat) (msg : String)
deriving Repr, DecidableEq

/-- The Map-based de-duplication of a fresh search page:
Array.from(new Map(movies.map(m tags [m.id, m])).values()).  JavaScript Map
insertion order keeps each key at its first occurrence while a later set
replaces the stored value, modelled by this fold. -/
def mapDedupStep (acc : List Movie) (m : Movie) : List Movie :=
  if acc.any (fun x => x.id == m.id) then
    acc.map (fun x => if x.id == m.id then m else x)
  else
    acc ++ [m]

/-- De-duplicate a movie list by id, JavaScript-Map style. -/
def mapDedupById (ms : List Movie) : List Movie :=
  ms.foldl mapDedupStep []

/-- The synchronous part of performSearch, up to and including starting
the fetch.  The empty-query branch resets the result state and returns;
the isLoadingRef guard skips; otherwise the previous controller is
aborted, a fresh controller installed, loading begins and the fetch is
registered as pending. -/
def performStart (searchQuery : String) (page : Int) (isLoadMore : Bool)
    (s : HookState) : HookState :=
  if searchQuery == "" || jsTrim searchQuery == "" then
    { s with movies := [], totalPages := 0, totalResults := 0,
             currentPage := 1, loading := false, isLoadingRef := false }
  else if s.isLoadingRef then
    s
  else
    { s with
      aborted := match s.curCtrl with
        | some c => c :: s.aborted
        | none => s.aborted
      curCtrl := some s.nextId
      loading := true
      isLoadingRef := true
      error := none
      pending := s.pending ++ [⟨s.nextId, searchQuery, page, isLoadMore⟩]
      nextId := s.nextId + 1 }

/-- The abort check executed after the await: tests the aborted flag of
the controller currently in abortControllerRef (optional chaining yields
false when the ref is empty).  Note this is the controller of the NEWEST
request, not the one captured for the completing request. -/
def currentCtrlAborted (s : HookState) : Bool :=
  match s.curCtrl with
  | some c => s.aborted.contains c
  | none => false

/-- Continuation of performSearch after a successful fetch: early return
when the abort check fires (the finally block still clears the loading
flags), otherwise commit the movies (append-with-id-filter for load-more,
Map de-duplication for a fresh search), the pagination fields and the
captured page. -/
def resolveStep (req : PendingReq) (r : SearchResult) (s : HookState) : HookState :=
  if currentCtrlAborted s then
    { s with loading := false, isLoadingRef := false }
  else
    let committed :=
      if req.isLoadMore then
        s.movies ++ r.movies.filter
          (fun m => !((s.movies.map (fun x => x.id)).contains m.id))
      else
        mapDedupById r.movies
    { s with movies := committed
             totalPages := r.totalPages
             totalResults := r.totalResults
             currentPage := req.page
             loading := false
             isLoadingRef := false }

/-- Continuation of performSearch after a failed fetch: early return when
the abort check fires, otherwise store the error; the finally block clears
the loading flags either way. -/
def rejectStep (msg : String) (s : HookState) : HookState :=
  if currentCtrlAborted s then
    { s with loading := false, isLoadingRef := false }
  else
    { s with error := some msg, loading := false, isLoadingRef := false }

/-- One transition of the hook. -/
def step (s : HookState) (ev : Ev) : HookState :=
  match ev with
  | .setDQ q => performStart q 1 false { s with dq := q }
  | .loadMoreEv =>
      if s.sortBy ≠ SortOption.relevance then s
      else if s.isLoadingRef || s.currentPage ≥ s.totalPages || s.dq == "" then s
      else performStart s.dq (s.currentPage + 1) true s
  | .setSort o => { s with sortBy := o }
  | .resolve reqId r =>
      match s.pending.find? (fun req => req.reqId == reqId) with
      | some req =>
          resolveStep req r
            { s with pending := s.pending.filter (fun req => req.reqId ≠ reqId) }
      | none => s
  | .reject reqId msg =>
      match s.pending.find? (fun req => req.reqId == reqId) with
      | some _ =>
          rejectStep msg
            { s with pending := s.pending.filter (fun req => req.reqId ≠ reqId) }
      | none => s

/-- Run the hook over an event trace. -/
def run (s : HookState) (evs : List Ev) : HookState :=
  evs.foldl step s

/-- hasMore of the sort-mode variant: relevance sorting and more pages
remaining. -/
def hasMore (s : HookState) : Bool :=
  s.sortBy = SortOption.relevance && s.currentPage < s.totalPages

/-- Three-way string comparison used to model comparator results. -/
def strOrdInt (x y : String) : Int :=
  if x < y then -1 else if y < x then 1 else 0

/-- displayMovies of the sort-mode variant: relevance returns the
accumulated list as is; the other modes stable-sort a copy.  The date
comparator (difference of Date.getTime values) is modelled by descending
lexicographic comparison of the ISO date strings, on which getTime is
monotone; the title comparator (localeCompare with base sensitivity) is
modelled as case-insensitive comparison via toLower. -/
def displayMovies (sortBy : SortOption) (movies : List Movie) : List Movie :=
  match sortBy with
  | .relevance => movies
  | .popularity => movies.mergeSort (fun a b => b.popularity - a.popularity ≤ 0)
  | .rating => movies.mergeSort (fun a b => b.rating - a.rating ≤ 0)
  | .date => movies.mergeSort (fun a b => strOrdInt b.releaseDate a.releaseDate ≤ 0)
  | .title => movies.mergeSort
      (fun a b => strOrdInt a.title.toLower b.title.toLower ≤ 0)

/-! ## Helper lemmas -/

/-- Filtering then mapping is the filterMap of the guarded function. -/
theorem filter_map_eq_filterMap {α β : Type} (p : α → Bool) (f : α → β)
    (l : List α) :
    (l.filter p).map f = l.filterMap (fun a => if p a then some (f a) else none) := by
  induction l with
  | nil => rfl
  | cons x xs ih => by_cases h : p x <;> simp [h, ih]

/-! ## Claim theorems -/

/-- C3: for every wire-format movie list response, the poster-filtered
adapter returns exactly the input items whose poster path is non-null,
transformed by toMovie in input order, and passes page, totalPages and
totalResults through verbatim. -/
theorem C3_poster_filtered_adapter (response : TMDBMovieListResponse) :
    (FilteredAdapter.toMovieList response).movies =
      response.results.filterMap
        (fun m => if m.poster_path.isSome then some (FilteredAdapter.toMovie m)
                  else none) ∧
    (FilteredAdapter.toMovieList response).page = response.page ∧
    (FilteredAdapter.toMovieList response).totalPages = response.total_pages ∧
    (FilteredAdapter.toMovieList response).totalResults = response.total_results := by
  refine ⟨?_, rfl, rfl, rfl⟩
  exact filter_map_eq_filterMap _ _ _

/-- C4: every non-2xx response produces an APIError whose status and
statusText equal the HTTP status and status text of the response and whose
message is exactly "API request failed: " followed by the status text;
every network rejection and every body parse failure produces the same
typed APIError (name "APIError", no status fields). -/
theorem C4_typed_api_error {α : Type} (status : Int) (statusText : String)
    (body : Except (Option String) α) (msg : Option String) :
    (responseOk status = false →
      fetchAPI (FetchOutcome.httpResponse status statusText body) =
        Except.error ⟨"APIError", "API request failed: " ++ statusText,
                      some status, some statusText⟩) ∧
    (∃ e, fetchAPI (FetchOutcome.networkFailure msg : FetchOutcome α) =
        Except.error e ∧ e.name = "APIError" ∧ e.status = none ∧
        e.statusText = none) ∧
    (responseOk status = true →
      ∃ e, fetchAPI (FetchOutcome.httpResponse status statusText
              (Except.error msg) : FetchOutcome α) =
          Except.error e ∧ e.name = "APIError" ∧ e.status = none ∧
          e.statusText = none) := by
  refine ⟨fun h => ?_,
    ⟨⟨"APIError", msg.getD "Unknown error occurred", none, none⟩,
      rfl, rfl, rfl, rfl⟩,
    fun h => ⟨⟨"APIError", msg.getD "Unknown error occurred", none, none⟩,
      ?_, rfl, rfl, rfl⟩⟩
  · simp [fetchAPI, h]
  · simp [fetchAPI, h]

/-- C4 witness: a 404 response yields the fully specified APIError, and a
network failure yields an APIError with no status fields. -/
theorem C4_typed_api_error_witness :
    fetchAPI (FetchOutcome.httpResponse 404 "Not Found"
        (Except.ok (37 : Nat))) =
      Except.error ⟨"APIError", "API request failed: Not Found",
                    some 404, some "Not Found"⟩ ∧
    (∃ e, fetchAPI (FetchOutcome.networkFailure (some "boom") : FetchOutcome Nat) =
        Except.error e ∧ e.name = "APIError" ∧ e.status = none ∧
        e.statusText = none) := by
  refine ⟨?_, (C4_typed_api_error 404 "Not Found" (Except.ok 37) (some "boom")).2.1⟩
  exact (C4_typed_api_error 404 "Not Found" (Except.ok (37 : Nat)) (some "boom")).1
    (by decide)

/-- C9: an empty or whitespace-only query makes
MovieRepository.searchMovies return the empty result set locally, with no
network call, and makes performSearch reset the hook movie list and
pagination fields to empty and zero, registering no fetch. -/
theorem C9_empty_query_reset (q : String) (page : Int) (s : HookState)
    (h : jsTrim q = "") :
    MovieRepository.searchMovies q page =
      RepoCall.localResult { page := 1, movies := [], totalPages := 0,
                             totalResults := 0 } ∧
    performStart q 1 false s =
      { s with movies := [], totalPages := 0, totalResults := 0,
               currentPage := 1, loading := false, isLoadingRef := false } := by
  constructor
  · simp [MovieRepository.searchMovies, h]
  · simp [performStart, h]

/-- C9 witness: the whitespace query "   " resets everything locally. -/
theorem C9_empty_query_reset_witness :
    MovieRepository.searchMovies "   " 3 =
      RepoCall.localResult { page := 1, movies := [], totalPages := 0,
                             totalResults := 0 } ∧
    performStart "   " 1 false initState =
      { initState with movies := [], totalPages := 0, totalResults := 0,
                       currentPage := 1, loading := false,
                       isLoadingRef := false } :=
  C9_empty_query_reset "   " 3 initState (by decide)

/-- The video comparator is transitive as a nonpositivity relation. -/
theorem videoCmp_le_trans (a b c : TMDBVideo)
    (hab : MovieAdapter.videoCmp a b ≤ 0)
    (hbc : MovieAdapter.videoCmp b c ≤ 0) :
    MovieAdapter.videoCmp a c ≤ 0 := by
  simp only [MovieAdapter.videoCmp] at *
  cases ha : a.official <;> cases hb : b.official <;> cases hc : c.official <;>
    simp_all <;> omega

/-- The video comparator is total as a nonpositivity relation. -/
theorem videoCmp_le_total (a b : TMDBVideo) :
    MovieAdapter.videoCmp a b ≤ 0 ∨ MovieAdapter.videoCmp b a ≤ 0 := by
  simp only [MovieAdapter.videoCmp]
  cases ha : a.official <;> cases hb : b.official <;> simp_all <;> omega

/-- Nonpositivity of the video comparator says exactly: officials first,
ties broken by ascending type rank. -/
theorem videoCmp_le_iff (a b : TMDBVideo) :
    MovieAdapter.videoCmp a b ≤ 0 ↔
      ((a.official = true ∧ b.official = false) ∨
       (a.official = b.official ∧
         MovieAdapter.typeRank a.type ≤ MovieAdapter.typeRank b.type)) := by
  simp only [MovieAdapter.videoCmp]
  cases ha : a.official <;> cases hb : b.official <;> simp_all

/-- C5: for every wire-format movie detail response the adapted cast list
has at most 20 entries; every adapted crew entry has one of the jobs
Director, Screenplay, Writer or Producer; and the adapted video list has
at most 6 entries, all from YouTube, ordered official-first and then by
type rank with Trailer before Teaser before Clip before all other
types. -/
theorem C5_detail_collection_policies (cast : List TMDBCastMember)
    (crew : List TMDBCrewMember) (videos : List TMDBVideo) :
    (MovieAdapter.toCast cast).length ≤ 20 ∧
    (∀ c ∈ MovieAdapter.toCrew crew,
        c.job = "Director" ∨ c.job = "Screenplay" ∨ c.job = "Writer" ∨
        c.job = "Producer") ∧
    (MovieAdapter.toVideos videos).length ≤ 6 ∧
    (∀ v ∈ MovieAdapter.toVideos videos, v.site = "YouTube") ∧
    List.Pairwise
      (fun a b : Video =>
        (a.official = true ∧ b.official = false) ∨
        (a.official = b.official ∧
          MovieAdapter.typeRank a.type ≤ MovieAdapter.typeRank b.type))
      (MovieAdapter.toVideos videos) := by
  refine ⟨?_, ?_, ?_, ?_, ?_⟩
  · simp [MovieAdapter.toCast]
  · intro c hc
    simp only [MovieAdapter.toCrew, List.mem_map] at hc
    obtain ⟨member, hmem, rfl⟩ := hc
    have hjob : member.job ∈ MovieAdapter.importantJobs := by
      have := (List.mem_filter.mp hmem).2
      simpa using this
    simpa [MovieAdapter.importantJobs] using hjob
  · simp [MovieAdapter.toVideos]
  · intro v hv
    simp only [MovieAdapter.toVideos, List.mem_map] at hv
    obtain ⟨w, hw, rfl⟩ := hv
    have h1 := List.mem_mergeSort.mp (List.mem_of_mem_take hw)
    have h2 := (List.mem_filter.mp h1).2
    simpa using h2
  · have hs := @List.sorted_mergeSort TMDBVideo
      (fun a b : TMDBVideo => MovieAdapter.videoCmp a b ≤ 0)
      (fun a b c hab hbc => by
        simp only [decide_eq_true_eq] at *
        exact videoCmp_le_trans a b c hab hbc)
      (fun a b => by
        simp only [Bool.or_eq_true, decide_eq_true_eq]
        exact videoCmp_le_total a b)
      (videos.filter (fun v => v.site == "YouTube"))
    have ht := List.Pairwise.sublist (List.take_sublist 6 _) hs
    simp only [MovieAdapter.toVideos]
    refine List.pairwise_map.mpr (ht.imp ?_)
    intro a b hab
    have := (videoCmp_le_iff a b).mp (by simpa using hab)
    simpa using this

/-- Sample cast list for the C5 witness. -/
def castW : List TMDBCastMember := [⟨1, "Alice", "Hero", none, 0⟩]

/-- Sample crew list for the C5 witness. -/
def crewW : List TMDBCrewMember := [⟨2, "Bob", "Director", "Directing", none⟩]

/-- Sample video list for the C5 witness: an unofficial teaser listed
before an official trailer. -/
def vidsW : List TMDBVideo :=
  [⟨"v1", "k1", "Tease", "YouTube", "Teaser", false⟩,
   ⟨"v2", "k2", "Trail", "YouTube", "Trailer", true⟩]

/-- The crew member the C5 witness exhibits. -/
def crewItemW : Crew := ⟨2, "Bob", "Director", "Directing", none⟩

/-- The video the C5 witness exhibits. -/
def vidItemW : Video := ⟨"v2", "k2", "Trail", "YouTube", "Trailer", true⟩

/-- C5 witness: the collection policies evaluated on concrete inputs. -/
theorem C5_detail_collection_policies_witness :
    (MovieAdapter.toCast castW).length ≤ 20 ∧
    (crewItemW.job = "Director" ∨ crewItemW.job = "Screenplay" ∨
      crewItemW.job = "Writer" ∨ crewItemW.job = "Producer") ∧
    (MovieAdapter.toVideos vidsW).length ≤ 6 ∧
    vidItemW.site = "YouTube" ∧
    List.Pairwise
      (fun a b : Video =>
        (a.official = true ∧ b.official = false) ∨
        (a.official = b.official ∧
          MovieAdapter.typeRank a.type ≤ MovieAdapter.typeRank b.type))
      (MovieAdapter.toVideos vidsW) :=
  ⟨(C5_detail_collection_policies castW crewW vidsW).1,
   (C5_detail_collection_policies castW crewW vidsW).2.1 crewItemW
     (by simp [MovieAdapter.toCrew, crewW, crewItemW, MovieAdapter.importantJobs,
               MovieAdapter.getImageUrl]),
   (C5_detail_collection_policies castW crewW vidsW).2.2.1,
   (C5_detail_collection_policies castW crewW vidsW).2.2.2.1 vidItemW
     (by simp [MovieAdapter.toVideos, List.mergeSort, vidsW, vidItemW,
               MovieAdapter.videoCmp, MovieAdapter.typeRank]),
   (C5_detail_collection_policies castW crewW vidsW).2.2.2.2⟩

/-- Validity check for timestamp strings of the shape produced by
Date.toISOString: YYYY-MM-DDTHH:MM:SS.mmmZ with all digit positions
digits and the month, day, hour, minute and second fields in range. -/
def isValidISO (str : String) : Bool :=
  match str.data with
  | [y1, y2, y3, y4, c1, m1, m2, c2, d1, d2, c3, h1, h2, c4, n1, n2, c5,
     e1, e2, c6, f1, f2, f3, c7] =>
      c1 = '-' && c2 = '-' && c3 = 'T' && c4 = ':' && c5 = ':' &&
      c6 = '.' && c7 = 'Z' &&
      ([y1, y2, y3, y4, m1, m2, d1, d2, h1, h2, n1, n2, e1, e2, f1, f2,
        f3].all Char.isDigit) &&
      (let mo := (m1.toNat - 48) * 10 + (m2.toNat - 48)
       let da := (d1.toNat - 48) * 10 + (d2.toNat - 48)
       let ho := (h1.toNat - 48) * 10 + (h2.toNat - 48)
       let mi := (n1.toNat - 48) * 10 + (n2.toNat - 48)
       let se := (e1.toNat - 48) * 10 + (e2.toNat - 48)
       1 ≤ mo && mo ≤ 12 && 1 ≤ da && da ≤ 31 && ho ≤ 23 && mi ≤ 59 &&
       se ≤ 59)
  | _ => false

/-- C6: adding a movieId that is already present returns failure and
leaves the stored document untouched; removing a movieId that is absent
returns failure and leaves the stored document untouched. -/
theorem C6_watchlist_failure_noop (σ : Stored) (movieId : Int) (now : String) :
    (WatchlistService.hasMovie movieId σ = true →
      WatchlistService.add movieId now σ = (false, σ)) ∧
    (WatchlistService.hasMovie movieId σ = false →
      WatchlistService.remove movieId σ = (false, σ)) := by
  constructor
  · intro h
    simp only [WatchlistService.hasMovie] at h
    simp [WatchlistService.add, h]
  · intro h
    simp only [WatchlistService.hasMovie, List.any_eq_false] at h
    have hfil : (WatchlistService.load σ).items.filter
        (fun item => item.movieId ≠ movieId) = (WatchlistService.load σ).items := by
      rw [List.filter_eq_self]
      intro a ha
      have := h a ha
      simpa using this
    simp only [WatchlistService.remove, hfil]
    simp

/-- C6 witness: adding the present id 7 and removing the absent id 42 both
fail and leave the document of one item unchanged. -/
theorem C6_watchlist_failure_noop_witness :
    WatchlistService.add 7 "2026-01-01T00:00:00.000Z"
        (Stored.val ⟨[⟨7, "2025-01-01T00:00:00.000Z"⟩], 1⟩) =
      (false, Stored.val ⟨[⟨7, "2025-01-01T00:00:00.000Z"⟩], 1⟩) ∧
    WatchlistService.remove 42
        (Stored.val ⟨[⟨7, "2025-01-01T00:00:00.000Z"⟩], 1⟩) =
      (false, Stored.val ⟨[⟨7, "2025-01-01T00:00:00.000Z"⟩], 1⟩) :=
  ⟨(C6_watchlist_failure_noop
      (Stored.val ⟨[⟨7, "2025-01-01T00:00:00.000Z"⟩], 1⟩) 7
      "2026-01-01T00:00:00.000Z").1 (by decide),
   (C6_watchlist_failure_noop
      (Stored.val ⟨[⟨7, "2025-01-01T00:00:00.000Z"⟩], 1⟩) 42
      "2026-01-01T00:00:00.000Z").2 (by decide)⟩

/-- C7: adding an absent movieId succeeds and prepends a new item carrying
the current clock timestamp at position 0, keeping the item list
newest-first and increasing the count by one; the stored addedAt is the
clock string, a valid ISO timestamp. -/
theorem C7_watchlist_add_prepends (σ : Stored) (movieId : Int) (now : String)
    (habs : WatchlistService.hasMovie movieId σ = false)
    (hiso : isValidISO now = true) :
    (WatchlistService.add movieId now σ).1 = true ∧
    WatchlistService.load (WatchlistService.add movieId now σ).2 =
      { items := ⟨movieId, now⟩ :: (WatchlistService.load σ).items,
        version := (WatchlistService.load σ).version } ∧
    (WatchlistService.load (WatchlistService.add movieId now σ).2).items.head? =
      some ⟨movieId, now⟩ ∧
    WatchlistService.count (WatchlistService.add movieId now σ).2 =
      WatchlistService.count σ + 1 ∧
    isValidISO (WatchlistItem.mk movieId now).addedAt = true := by
  have habs' : ¬ ∃ x ∈ (WatchlistService.load σ).items, x.movieId = movieId := by
    simp only [WatchlistService.hasMovie] at habs
    simpa using habs
  have key : WatchlistService.add movieId now σ =
      (true, Stored.val
        { items := ⟨movieId, now⟩ :: (WatchlistService.load σ).items,
          version := (WatchlistService.load σ).version }) := by
    simp [WatchlistService.add, habs']
  refine ⟨?_, ?_, ?_, ?_, hiso⟩
  · rw [key]
  · rw [key]
    rfl
  · rw [key]
    rfl
  · rw [key]
    simp only [WatchlistService.count, WatchlistService.load, List.length_cons]
    push_cast
    ring

/-- C7 witness: adding movieId 42 to the empty watchlist gives count 1
with the item in position 0 and a valid ISO addedAt. -/
theorem C7_watchlist_add_prepends_witness :
    (WatchlistService.add 42 "2026-10-11T00:00:00.000Z" Stored.missing).1 = true ∧
    WatchlistService.load
        (WatchlistService.add 42 "2026-10-11T00:00:00.000Z" Stored.missing).2 =
      { items := ⟨42, "2026-10-11T00:00:00.000Z"⟩ ::
          (WatchlistService.load Stored.missing).items,
        version := (WatchlistService.load Stored.missing).version } ∧
    (WatchlistService.load
        (WatchlistService.add 42 "2026-10-11T00:00:00.000Z" Stored.missing).2).items.head? =
      some ⟨42, "2026-10-11T00:00:00.000Z"⟩ ∧
    WatchlistService.count
        (WatchlistService.add 42 "2026-10-11T00:00:00.000Z" Stored.missing).2 =
      WatchlistService.count Stored.missing + 1 ∧
    isValidISO (WatchlistItem.mk 42 "2026-10-11T00:00:00.000Z").addedAt = true :=
  C7_watchlist_add_prepends Stored.missing 42 "2026-10-11T00:00:00.000Z"
    (by decide) (by decide)

/-- One watchlist operation preserves a loaded version of 1 and writes
only documents at version 1. -/
theorem applyOp_version (op : WatchlistService.WOp) (σ : Stored)
    (h : (WatchlistService.load σ).version = 1) :
    (WatchlistService.load (WatchlistService.applyOp op σ).1).version = 1 ∧
    ∀ d ∈ (WatchlistService.applyOp op σ).2, d.version = 1 := by
  cases op with
  | addOp movieId now =>
      simp only [WatchlistService.applyOp, WatchlistService.add]
      set d := WatchlistService.load σ with hd
      by_cases hp : (d.items.any (fun item => item.movieId == movieId)) = true
      · simp [hp]
        rw [← hd]
        exact h
      · simp only [Bool.not_eq_true] at hp
        simp [hp, h, WatchlistService.load]
  | removeOp movieId =>
      simp only [WatchlistService.applyOp, WatchlistService.remove]
      set d := WatchlistService.load σ with hd
      by_cases hq : ∀ a ∈ d.items, ¬a.movieId = movieId
      · have hfeq : d.items.filter (fun item => item.movieId ≠ movieId) =
            d.items := by
          rw [List.filter_eq_self]
          intro a ha
          simpa using hq a ha
        rw [if_pos (by rw [hfeq])]
        exact ⟨hd ▸ h, by simp⟩
      · simp [hq, h, WatchlistService.load]
  | clearOp =>
      simp [WatchlistService.applyOp, WatchlistService.clear,
            WatchlistService.load, WatchlistService.getEmptyData,
            CURRENT_VERSION]

/-- Folding watchlist operations from a version-1 state only accumulates
version-1 writes. -/
theorem runOps_fold_version (ops : List WatchlistService.WOp) (σ : Stored)
    (ws : List WatchlistData)
    (hσ : (WatchlistService.load σ).version = 1)
    (hws : ∀ d ∈ ws, d.version = 1) :
    ∀ d ∈ (ops.foldl (fun acc op =>
        let r := WatchlistService.applyOp op acc.1
        (r.1, acc.2 ++ r.2)) (σ, ws)).2, d.version = 1 := by
  induction ops generalizing σ ws with
  | nil => simpa using hws
  | cons op rest ih =>
      simp only [List.foldl_cons]
      refine ih (WatchlistService.applyOp op σ).1
        (ws ++ (WatchlistService.applyOp op σ).2)
        (applyOp_version op σ hσ).1 ?_
      intro d hd
      rcases List.mem_append.mp hd with hd | hd
      · exact hws d hd
      · exact (applyOp_version op σ hσ).2 d hd

/-- C10: starting from any storage state that loads as the empty document
(missing, corrupt, or the empty document itself), every document that any
sequence of add, remove and clear operations writes to storage carries
version 1. -/
theorem C10_version_always_one (ops : List WatchlistService.WOp) (σ : Stored)
    (h : WatchlistService.load σ = WatchlistService.getEmptyData) :
    ∀ d ∈ (WatchlistService.runOps ops σ).2, d.version = 1 := by
  have h1 : (WatchlistService.load σ).version = 1 := by
    rw [h]
    rfl
  simpa [WatchlistService.runOps] using
    runOps_fold_version ops σ [] h1 (by simp)

/-- C10 witness: the empty document written by a clear after an add on
empty storage has version 1. -/
theorem C10_version_always_one_witness :
    WatchlistService.getEmptyData.version = 1 :=
  C10_version_always_one
    [WatchlistService.WOp.addOp 42 "2026-10-11T00:00:00.000Z",
     WatchlistService.WOp.clearOp]
    Stored.missing (by decide) WatchlistService.getEmptyData (by decide)

/-- One Map-insertion step either keeps the id multiset of the
accumulator (replacement of the stored value) or appends the new id,
which was not present. -/
theorem mapDedupStep_ids (acc : List Movie) (m : Movie) :
    (mapDedupStep acc m).map (fun x => x.id) = acc.map (fun x => x.id) ∨
    ((mapDedupStep acc m).map (fun x => x.id) =
        acc.map (fun x => x.id) ++ [m.id] ∧
      m.id ∉ acc.map (fun x => x.id)) := by
  by_cases hp : (acc.any (fun x => x.id == m.id)) = true
  · left
    simp only [mapDedupStep, hp, if_true, List.map_map]
    refine List.map_congr_left ?_
    intro a _
    by_cases hid : a.id = m.id
    · simp [Function.comp, hid]
    · simp [Function.comp, hid]
  · right
    simp only [mapDedupStep, hp, if_false, Bool.false_eq_true, List.map_append]
    refine ⟨rfl, ?_⟩
    simp only [List.any_eq_true, not_exists, not_and] at hp
    intro hmem
    obtain ⟨a, ha, haid⟩ := List.mem_map.mp hmem
    exact absurd (by simpa using haid) (by simpa using hp a ha)

/-- Folding Map insertions preserves distinctness of the accumulated
ids. -/
theorem mapDedup_fold_nodup (ms : List Movie) :
    ∀ acc : List Movie, (acc.map (fun x => x.id)).Nodup →
      ((ms.foldl mapDedupStep acc).map (fun x => x.id)).Nodup := by
  induction ms with
  | nil => intro acc hacc; simpa using hacc
  | cons m rest ih =>
      intro acc hacc
      simp only [List.foldl_cons]
      refine ih (mapDedupStep acc m) ?_
      rcases mapDedupStep_ids acc m with heq | ⟨heq, hnot⟩
      · rw [heq]; exact hacc
      · rw [heq]
        rw [List.nodup_append]
        exact ⟨hacc, List.nodup_singleton _, by
          intro a ha hb
          simp only [List.mem_singleton] at hb
          exact hnot (hb ▸ ha)⟩

/-- The Map de-duplication of a fresh page always yields distinct ids. -/
theorem mapDedupById_nodup (ms : List Movie) :
    ((mapDedupById ms).map (fun x => x.id)).Nodup :=
  mapDedup_fold_nodup ms [] (by simp)

/-- Appending a page filtered against the already-loaded ids preserves
distinctness, provided the incoming page itself has distinct ids. -/
theorem appendFiltered_nodup (A B : List Movie)
    (hA : (A.map (fun x => x.id)).Nodup) (hB : (B.map (fun x => x.id)).Nodup) :
    ((A ++ B.filter
        (fun m => !((A.map (fun x => x.id)).contains m.id))).map
      (fun x => x.id)).Nodup := by
  rw [List.map_append, List.nodup_append]
  refine ⟨hA, ?_, ?_⟩
  · exact List.Nodup.sublist
      (List.Sublist.map _ (List.filter_sublist B)) hB
  · intro a ha hb
    obtain ⟨m, hm, rfl⟩ := List.mem_map.mp hb
    have hmf := (List.mem_filter.mp hm).2
    simp only [Bool.not_eq_eq_eq_not, Bool.not_true] at hmf
    have : m.id ∈ A.map (fun x => x.id) := ha
    have hcontr : (A.map (fun x => x.id)).contains m.id = true := by
      simpa [List.elem_eq_mem] using this
    rw [hcontr] at hmf
    cases hmf

/-- A trace event is benign when any response it delivers has pairwise
distinct movie ids. -/
def goodEv (ev : Ev) : Bool :=
  match ev with
  | .resolve _ r => decide ((r.movies.map (fun m => m.id)).Nodup)
  | _ => true

/-- performSearch never invents movies at start time: it either clears the
list or leaves it alone. -/
theorem performStart_movies (q : String) (page : Int) (isLoadMore : Bool)
    (s : HookState) :
    (performStart q page isLoadMore s).movies = [] ∨
    (performStart q page isLoadMore s).movies = s.movies := by
  unfold performStart
  by_cases h1 : (q == "" || jsTrim q == "") = true
  · rw [if_pos h1]
    left
    rfl
  · rw [if_neg h1]
    by_cases h2 : s.isLoadingRef = true
    · rw [if_pos h2]
      right
      rfl
    · rw [if_neg h2]
      right
      rfl

/-- A single benign step preserves distinctness of the displayed movie
ids. -/
theorem step_preserves_nodup (s : HookState) (ev : Ev)
    (hev : goodEv ev = true)
    (hs : (s.movies.map (fun x => x.id)).Nodup) :
    (((step s ev).movies).map (fun x => x.id)).Nodup := by
  cases ev with
  | setDQ q =>
      rcases performStart_movies q 1 false { s with dq := q } with h | h
      · simp only [step, h]
        simp
      · simp only [step, h]
        exact hs
  | loadMoreEv =>
      simp only [step]
      by_cases h1 : s.sortBy ≠ SortOption.relevance
      · rw [if_pos h1]; exact hs
      · rw [if_neg h1]
        by_cases h2 : (s.isLoadingRef || s.currentPage ≥ s.totalPages ||
            s.dq == "") = true
        · rw [if_pos h2]; exact hs
        · rw [if_neg h2]
          rcases performStart_movies s.dq (s.currentPage + 1) true s with h | h
          · rw [h]; simp
          · rw [h]; exact hs
  | setSort o => exact hs
  | resolve reqId r =>
      simp only [step]
      cases hfind : s.pending.find? (fun req => req.reqId == reqId) with
      | none => exact hs
      | some req =>
          simp only [resolveStep]
          by_cases hab : currentCtrlAborted
              { s with pending :=
                  s.pending.filter (fun req => req.reqId ≠ reqId) } = true
          · rw [if_pos hab]; exact hs
          · rw [if_neg hab]
            by_cases hlm : req.isLoadMore = true
            · simp only [hlm, if_true]
              have hr : ((r.movies.map (fun m => m.id)).Nodup) := by
                simpa [goodEv] using hev
              exact appendFiltered_nodup s.movies r.movies hs hr
            · simp only [Bool.not_eq_true] at hlm
              simp only [hlm, Bool.false_eq_true, if_false]
              exact mapDedupById_nodup r.movies
  | reject reqId msg =>
      simp only [step]
      cases hfind : s.pending.find? (fun req => req.reqId == reqId) with
      | none => exact hs
      | some req =>
          simp only [rejectStep]
          by_cases hab : currentCtrlAborted
              { s with pending :=
                  s.pending.filter (fun req => req.reqId ≠ reqId) } = true
          · rw [if_pos hab]; exact hs
          · rw [if_neg hab]; exact hs

/-- Distinctness of the accumulated ids is an invariant of every benign
trace. -/
theorem run_preserves_nodup (tr : List Ev) :
    ∀ s : HookState, (∀ ev ∈ tr, goodEv ev = true) →
      (s.movies.map (fun x => x.id)).Nodup →
      (((run s tr).movies).map (fun x => x.id)).Nodup := by
  induction tr with
  | nil => intro s _ hs; simpa [run] using hs
  | cons ev rest ih =>
      intro s htr hs
      simp only [run, List.foldl_cons]
      exact ih (step s ev) (fun e he => htr e (List.mem_cons_of_mem _ he))
        (step_preserves_nodup s ev (htr ev (List.mem_cons_self _ _)) hs)

/-- Sample movie delivered by the stale request of the C1 trace. -/
def movieFoo : Movie :=
  ⟨1, "Foo", "Foo", "en", "", none, none, "2020-01-01", 5, 10, 50, []⟩

/-- Response of the stale request of the C1 trace. -/
def resFoo : SearchResult := ⟨1, [movieFoo], 5, 100⟩

/-- C1 trace: the debounced query "foo" starts request 0; the query is
cleared (the empty branch resets the loading ref without touching the
pending fetch); the debounced query "bar" starts request 1, aborting
request 0's controller; then request 0's response arrives late. -/
def traceStale : List Ev :=
  [Ev.setDQ "foo", Ev.setDQ "", Ev.setDQ "bar", Ev.resolve 0 resFoo]

/-- C1: the claim fails on the code.  In the final state of the trace the
controller of request 0 has been aborted by the start of request 1
(aborted = [0]) and the live query is "bar", yet the late response of the
cancelled request 0 has been committed: the movies list holds the "foo"
results and totalPages was overwritten with the stale value.  The
post-await check reads the aborted flag of the controller currently in
the ref (the one of request 1, not aborted), not the controller captured
for request 0, and the abort signal is never passed to the fetch. -/
theorem C1_stale_response_commits :
    (run initState traceStale).aborted = [0] ∧
    (run initState traceStale).dq = "bar" ∧
    (run initState traceStale).movies = [movieFoo] ∧
    (run initState traceStale).totalPages = 5 := by
  decide

/-- Movie with id 1 for the C2 traces. -/
def movieA : Movie :=
  ⟨1, "A", "A", "en", "", none, none, "2020-01-01", 5, 10, 50, []⟩

/-- Movie with id 2 for the C2 traces. -/
def movieB : Movie :=
  ⟨2, "B", "B", "en", "", none, none, "2021-01-01", 6, 20, 60, []⟩

/-- First page of the C2 traces. -/
def resPage1 : SearchResult := ⟨1, [movieA], 2, 40⟩

/-- Second page containing the same movie twice (upstream pages are not
guaranteed duplicate-free). -/
def resPage2dup : SearchResult := ⟨2, [movieB, movieB], 2, 40⟩

/-- Second page with distinct ids. -/
def resPage2ok : SearchResult := ⟨2, [movieB], 2, 40⟩

/-- C2 counterexample trace: search, first page, load more, second page
that internally repeats one movie. -/
def traceDup : List Ev :=
  [Ev.setDQ "q", Ev.resolve 0 resPage1, Ev.loadMoreEv,
   Ev.resolve 1 resPage2dup]

/-- C2 counterexample: when a load-more response itself contains the same
movie id twice, the append path (which filters only against the ids
already loaded, not within the incoming page) produces an accumulated
list with a duplicated id. -/
theorem C2_duplicate_from_page :
    ¬ (((run initState traceDup).movies.map (fun m => m.id)).Nodup) := by
  decide

/-- C2 (amended): for every event trace in which each delivered response
has pairwise distinct movie ids — which covers loading the same page
twice and overlapping pages — the accumulated movies list never contains
two entries with the same movie id. -/
theorem C2_search_dedup_invariant (tr : List Ev)
    (h : ∀ ev ∈ tr, goodEv ev = true) :
    (((run initState tr).movies).map (fun m => m.id)).Nodup :=
  run_preserves_nodup tr initState h (by simp [initState])

/-- Benign C2 trace: the same flow, second page duplicate-free. -/
def traceOk : List Ev :=
  [Ev.setDQ "q", Ev.resolve 0 resPage1, Ev.loadMoreEv,
   Ev.resolve 1 resPage2ok]

/-- C2 witness: the invariant evaluated on a concrete benign trace. -/
theorem C2_search_dedup_invariant_witness :
    (((run initState traceOk).movies).map (fun m => m.id)).Nodup :=
  C2_search_dedup_invariant traceOk (by decide)

/-- C8: with a sort mode other than relevance, loadMore is a no-op and
hasMore is false; with the relevance mode the displayed list is the
accumulated upstream-ordered list unchanged. -/
theorem C8_sort_disables_pagination (s : HookState) :
    (s.sortBy ≠ SortOption.relevance →
      step s Ev.loadMoreEv = s ∧ hasMore s = false) ∧
    (s.sortBy = SortOption.relevance →
      displayMovies s.sortBy s.movies = s.movies) := by
  constructor
  · intro h
    refine ⟨?_, ?_⟩
    · simp only [step]
      rw [if_pos h]
    · simp [hasMore, h]
  · intro h
    rw [h]
    rfl

/-- A state mid-search with the rating sort selected, for the C8
witness. -/
def stRating : HookState :=
  { initState with sortBy := SortOption.rating, movies := [movieA],
                   currentPage := 1, totalPages := 2, dq := "q" }

/-- C8 witness: with rating sort and pages remaining, loadMore changes
nothing and hasMore is false; with relevance the displayed list is
untouched. -/
theorem C8_sort_disables_pagination_witness :
    (step stRating Ev.loadMoreEv = stRating ∧ hasMore stRating = false) ∧
    displayMovies initState.sortBy initState.movies = initState.movies :=
  ⟨(C8_sort_disables_pagination stRating).1 (by decide),
   (C8_sort_disables_pagination initState).2 rfl⟩
